import Mathlib

/-!
Shallow embedding of `error_analyzer.py` from the auto-deploy-assistant
repository, and proofs of the specification claims about it.

Strings are modelled as `List Char`.  The two regular expressions used by
`parse_error_log` are embedded as executable search functions that follow
Python `re.search` semantics for these concrete patterns: the match with the
leftmost starting position wins, and the lazy group `(.+?)` (one or more
non-newline characters) takes the shortest extension that lets the rest of
the pattern match; `\d+` is a maximal nonempty digit run (greedy, and no
backtracking into it can help here because the character after a maximal
digit run is never a digit).
-/

namespace ErrorAnalyzer

/-- Python-`str.isspace`-style whitespace (the ASCII characters stripped by
`str.strip()`): space, tab, newline, carriage return, vertical tab, form feed. -/
def pyIsSpace (c : Char) : Bool :=
  c = ' ' || c = '\t' || c = '\n' || c = '\r' || c = Char.ofNat 11 || c = Char.ofNat 12

/-- Python `not error_log.strip()`: true iff the string is empty or
whitespace-only. -/
def isBlank (s : List Char) : Bool :=
  s.all pyIsSpace

/-- Python truthiness of an `os.getenv` result: `None` and the empty string
are falsy, every other string is truthy. -/
def truthyOpt : Option (List Char) → Bool
  | none => false
  | some s => !s.isEmpty

/-- Numeric value of a digit string, as Python `int` reads it
(so `int("0042") = 42`). -/
def digitsVal (ds : List Char) : Nat :=
  ds.foldl (fun a c => a * 10 + (c.toNat - 48)) 0

/-- Substring test, Python `pat in s`. -/
def containsSub (s pat : List Char) : Bool :=
  match s with
  | [] => pat.isEmpty
  | _ :: rest => pat.isPrefixOf s || containsSub rest pat

/-- Tail of the Python-traceback pattern after the lazy group: the literal
`", line ` followed by a maximal nonempty digit run `(\d+)`; returns the
captured line number. -/
def pyTail (s : List Char) : Option Nat :=
  let lit : List Char := "\", line ".data
  if lit.isPrefixOf s then
    let rest := s.drop lit.length
    let ds := rest.takeWhile Char.isDigit
    if ds.isEmpty then none else some (digitsVal ds)
  else none

/-- The lazy group `(.+?)` of the traceback pattern: having already captured
`acc`, consume one more non-newline character and stop as soon as `pyTail`
matches what follows (shortest capture first, as Python backtracking does). -/
def pyLazy (acc : List Char) : List Char → Option (List Char × Nat)
  | [] => none
  | c :: rest =>
    if c = '\n' then none
    else
      match pyTail rest with
      | some n => some (acc ++ [c], n)
      | none => pyLazy (acc ++ [c]) rest

/-- Attempt to match `File "(.+?)", line (\d+)` anchored at the start of `s`. -/
def pyAt (s : List Char) : Option (List Char × Nat) :=
  let lit : List Char := "File \"".data
  if lit.isPrefixOf s then pyLazy [] (s.drop lit.length) else none

/-- `re.search` of the traceback pattern `File "(.+?)", line (\d+)`:
try every start position left to right, leftmost match wins; returns
groups 1 (file path) and 2 (line number). -/
def searchPy : List Char → Option (List Char × Nat)
  | [] => none
  | c :: rest =>
    match pyAt (c :: rest) with
    | some r => some r
    | none => searchPy rest

/-- Tail of the stack-trace pattern after the lazy group: `:(\d+):(\d+)`,
each digit run maximal and nonempty; returns the captured line and column. -/
def jsTail (s : List Char) : Option (Nat × Nat) :=
  match s with
  | ':' :: rest =>
    let d1 := rest.takeWhile Char.isDigit
    if d1.isEmpty then none
    else
      match rest.drop d1.length with
      | ':' :: rest2 =>
        let d2 := rest2.takeWhile Char.isDigit
        if d2.isEmpty then none else some (digitsVal d1, digitsVal d2)
      | _ => none
  | _ => none

/-- The lazy group `(.+?)` of the stack-trace pattern, shortest capture first. -/
def jsLazy (acc : List Char) : List Char → Option (List Char × Nat × Nat)
  | [] => none
  | c :: rest =>
    if c = '\n' then none
    else
      match jsTail rest with
      | some (ln, col) => some (acc ++ [c], ln, col)
      | none => jsLazy (acc ++ [c]) rest

/-- Attempt to match `at (.+?):(\d+):(\d+)` anchored at the start of `s`. -/
def jsAt (s : List Char) : Option (List Char × Nat × Nat) :=
  let lit : List Char := "at ".data
  if lit.isPrefixOf s then jsLazy [] (s.drop lit.length) else none

/-- `re.search` of the stack-trace pattern `at (.+?):(\d+):(\d+)`:
leftmost match wins; returns groups 1 (path), 2 (line), 3 (column). -/
def searchJs : List Char → Option (List Char × Nat × Nat)
  | [] => none
  | c :: rest =>
    match jsAt (c :: rest) with
    | some r => some r
    | none => searchJs rest

/-- The `error_info` dictionary built by `parse_error_log`. -/
structure ErrorInfo where
  error_type : List Char
  file_path : Option (List Char)
  line_number : Option Nat
  message : List Char
deriving DecidableEq, Repr

/-- `parse_error_log(error_log)`: substring checks choose `error_type` in the
source's `if`/`elif` priority order; the traceback pattern, searched first,
supplies `file_path`/`line_number`, else the stack-trace pattern, else both
stay `None`. -/
def parse_error_log (error_log : List Char) : ErrorInfo :=
  let python_error := searchPy error_log
  let js_error := searchJs error_log
  let error_type : List Char :=
    if containsSub error_log "SyntaxError".data then "SyntaxError".data
    else if containsSub error_log "TypeError".data then "TypeError".data
    else if containsSub error_log "ImportError".data
            || containsSub error_log "ModuleNotFoundError".data then "ImportError".data
    else if containsSub error_log "NameError".data then "NameError".data
    else if containsSub error_log "AttributeError".data then "AttributeError".data
    else "Unknown".data
  match python_error with
  | some (p, n) =>
    { error_type := error_type, file_path := some p, line_number := some n,
      message := error_log }
  | none =>
    match js_error with
    | some (p, n, _) =>
      { error_type := error_type, file_path := some p, line_number := some n,
        message := error_log }
    | none =>
      { error_type := error_type, file_path := none, line_number := none,
        message := error_log }

/-- Result dictionary of `extract_code_context`: the success branch carries
`code`, `start_line`, `end_line`, `error_line`; the exception branch carries
`code` (always the empty string there) and `error`. -/
inductive CodeContext where
  | ok (code : List Char) (start_line : Nat) (end_line : Nat) (error_line : Nat)
  | err (code : List Char) (error : List Char)
deriving DecidableEq, Repr

/-- The `code` entry of either branch of a `CodeContext` dictionary. -/
def CodeContext.code : CodeContext → List Char
  | .ok code _ _ _ => code
  | .err code _ => code

/-- The external world `main` consults: library availability flags, the two
credential environment variables, the provider network calls (prompt to
response content, or a raised exception rendered as its `str(e)` message),
and the file system (path to the `readlines()` list, lines keeping their
newline terminators, or a raised I/O exception's `str(e)` message). -/
structure Env where
  openai_available : Bool
  anthropic_available : Bool
  openai_api_key : Option (List Char)
  anthropic_api_key : Option (List Char)
  openai_call : List Char → Except (List Char) (List Char)
  anthropic_call : List Char → Except (List Char) (List Char)
  fs : List Char → Except (List Char) (List (List Char))

/-- `extract_code_context(file_path, line_number, context_lines=5)`:
`start = max(0, line_number - context_lines - 1)` (Nat subtraction is that
max), `end = min(len(lines), line_number + context_lines)`, snippet is the
join of the Python slice `lines[start:end]` (empty when `end <= start`);
any exception from the read yields the `err` branch with empty code. -/
def extract_code_context (env : Env) (file_path : List Char) (line_number : Nat)
    (context_lines : Nat := 5) : CodeContext :=
  match env.fs file_path with
  | .error e => .err [] ("Could not extract code: ".data ++ e)
  | .ok lines =>
    let start := line_number - context_lines - 1
    let stop := min lines.length (line_number + context_lines)
    let code_snippet := ((lines.drop start).take (stop - start)).flatten
    .ok code_snippet (start + 1) stop line_number

/-- The common prompt text built by both provider functions (the two Python
f-strings are identical). -/
def buildPrompt (error_log code_snippet : List Char) : List Char :=
  "Analyze this build error and provide actionable fix suggestions:\n\nERROR LOG:\n".data
    ++ error_log
    ++ "\n\nCODE SNIPPET:\n".data
    ++ code_snippet
    ++ "\n\nPlease provide:\n1. Root cause of the error\n2. Specific fix suggestions (2-3 options)\n3. Code example of the fix if applicable\n\nKeep suggestions concise and actionable.".data

/-- `analyze_with_openai(error_log, code_snippet)`: early returns on missing
library or falsy credential, otherwise the API call's content, with any
raised exception captured as an error string. -/
def analyze_with_openai (env : Env) (error_log code_snippet : List Char) : List Char :=
  if !env.openai_available then "OpenAI library not available".data
  else if !truthyOpt env.openai_api_key then
    "OPENAI_API_KEY environment variable not set".data
  else
    match env.openai_call (buildPrompt error_log code_snippet) with
    | .ok content => content
    | .error e => "Error calling OpenAI API: ".data ++ e

/-- `analyze_with_anthropic(error_log, code_snippet)`: same shape as the
OpenAI binding with the Anthropic flag, credential and error prefix. -/
def analyze_with_anthropic (env : Env) (error_log code_snippet : List Char) : List Char :=
  if !env.anthropic_available then "Anthropic library not available".data
  else if !truthyOpt env.anthropic_api_key then
    "ANTHROPIC_API_KEY environment variable not set".data
  else
    match env.anthropic_call (buildPrompt error_log code_snippet) with
    | .ok content => content
    | .error e => "Error calling Anthropic API: ".data ++ e

/-- The fixed suggestion lists of `generate_fallback_suggestions`, keyed by
error type; `dict.get` with the default list for every other key. -/
def fallbackTable (error_type : List Char) : List (List Char) :=
  if error_type = "SyntaxError".data then
    ["Check for missing parentheses, brackets, or quotes".data,
     "Verify proper indentation (especially in Python)".data,
     "Look for unclosed code blocks".data]
  else if error_type = "ImportError".data then
    ["Verify the module is installed: pip install <module>".data,
     "Check if the import path is correct".data,
     "Ensure the module is in your requirements.txt".data]
  else if error_type = "TypeError".data then
    ["Check if you're passing the correct data types".data,
     "Verify function arguments match expected types".data,
     "Review type conversions (str, int, float, etc.)".data]
  else if error_type = "NameError".data then
    ["Check if the variable is defined before use".data,
     "Verify correct spelling of variable names".data,
     "Ensure variable is in correct scope".data]
  else if error_type = "AttributeError".data then
    ["Verify the object has the attribute you're accessing".data,
     "Check if object is None before accessing attributes".data,
     "Review the object's available methods and properties".data]
  else
    ["Review the error message carefully".data,
     "Check the documentation for the failing component".data,
     "Try searching for similar errors online".data]

/-- `generate_fallback_suggestions(error_info)`: look the error type up in the
static table (`error_info.get('error_type', ...)` always finds the key in a
dictionary produced by `parse_error_log`). -/
def generate_fallback_suggestions (error_info : ErrorInfo) : List (List Char) :=
  fallbackTable error_info.error_type

/-- The `result` dictionary literal of `main`, in source order: the keys of
every emitted analysis document. -/
def analysisResultKeys : List (List Char) :=
  ["success".data, "timestamp".data, "error_info".data, "code_context".data,
   "ai_suggestions".data, "fallback_suggestions".data, "ai_provider".data]

/-- The analysis document assembled by `main` (the `timestamp` entry,
`datetime.now().isoformat()`, is the one nondeterministic field and is not
modelled; `analysisResultKeys` records the full key list). -/
structure AnalysisResult where
  success : Bool
  error_info : ErrorInfo
  code_context : Option CodeContext
  ai_suggestions : Option (List Char)
  fallback_suggestions : List (List Char)
  ai_provider : List Char
deriving DecidableEq, Repr

/-- Outcome of one run of `main`: either the early `sys.exit(1)` with the
minimal failure document, or the normal return (exit status 0) with the full
analysis document. -/
inductive MainOutcome where
  | failed (success : Bool) (error : List Char) (exit_code : Nat)
  | completed (result : AnalysisResult) (exit_code : Nat)
deriving DecidableEq, Repr

/-- The `code_context` variable of `main`: extraction happens exactly when
`error_info['file_path'] and error_info['line_number']` is truthy (a `None`
or empty path, and a `None` or zero line number, are falsy). -/
def mainCodeContext (env : Env) (error_info : ErrorInfo) : Option CodeContext :=
  match error_info.file_path, error_info.line_number with
  | some p, some n =>
    if !p.isEmpty && n != 0 then some (extract_code_context env p n) else none
  | _, _ => none

/-- The snippet handed to the provider bindings:
`code_context['code'] if code_context else ''`. -/
def mainSnippet (code_context : Option CodeContext) : List Char :=
  match code_context with
  | some c => c.code
  | none => []

/-- The `ai_suggestions` variable of `main`: the `if`/`elif` provider chain,
OpenAI first, Anthropic second, `None` when neither is available and
configured. -/
def mainAISuggestions (env : Env) (error_log : List Char)
    (code_context : Option CodeContext) : Option (List Char) :=
  if env.openai_available && truthyOpt env.openai_api_key then
    some (analyze_with_openai env error_log (mainSnippet code_context))
  else if env.anthropic_available && truthyOpt env.anthropic_api_key then
    some (analyze_with_anthropic env error_log (mainSnippet code_context))
  else none

/-- The `ai_provider` entry of the result dictionary: the same conditional
chain re-evaluated at assembly time. -/
def mainAIProvider (env : Env) : List Char :=
  if env.openai_available && truthyOpt env.openai_api_key then "openai".data
  else if env.anthropic_available && truthyOpt env.anthropic_api_key then
    "anthropic".data
  else "none".data

/-- `main()`: blank input short-circuits to the failure document and exit
status 1; otherwise parse, optionally extract context, invoke the first
available-and-configured provider (OpenAI before Anthropic) or none, always
compute fallback suggestions, and assemble the result (exit status 0). -/
def main (env : Env) (error_log : List Char) : MainOutcome :=
  if isBlank error_log then
    .failed false "No error log provided".data 1
  else
    let error_info := parse_error_log error_log
    let code_context := mainCodeContext env error_info
    let ai_suggestions := mainAISuggestions env error_log code_context
    let fallback_suggestions := generate_fallback_suggestions error_info
    let ai_provider := mainAIProvider env
    .completed
      { success := true, error_info := error_info, code_context := code_context,
        ai_suggestions := ai_suggestions,
        fallback_suggestions := fallback_suggestions, ai_provider := ai_provider }
      0

/-- An environment with no AI library installed, no credential set, and a
file system on which every read raises. -/
def envNone : Env :=
  { openai_available := false, anthropic_available := false,
    openai_api_key := none, anthropic_api_key := none,
    openai_call := fun _ => Except.error "unreachable".data,
    anthropic_call := fun _ => Except.error "unreachable".data,
    fs := fun _ => Except.error "No such file or directory".data }

/-- A ten-line file body for the window-size scenario. -/
def tenLines : List (List Char) :=
  ["line 1\n".data, "line 2\n".data, "line 3\n".data, "line 4\n".data,
   "line 5\n".data, "line 6\n".data, "line 7\n".data, "line 8\n".data,
   "line 9\n".data, "line 10\n".data]

/-- An environment whose file system holds `app.py` with exactly ten lines
and nothing else; no AI provider. -/
def env10 : Env :=
  { envNone with
    fs := fun p =>
      if p = "app.py".data then Except.ok tenLines
      else Except.error "No such file or directory".data }

/-- An environment whose file system holds `f.py` with exactly three lines. -/
def env3 : Env :=
  { envNone with
    fs := fun p =>
      if p = "f.py".data then
        Except.ok ["a\n".data, "b\n".data, "c\n".data]
      else Except.error "No such file or directory".data }

/-- A 47-line file body: line `k` reads `line k`. -/
def line47 (k : Nat) : List Char :=
  "line ".data ++ (Nat.toDigits 10 k) ++ ['\n']

/-- A 47-line file body. -/
def lines47 : List (List Char) :=
  (List.range 47).map fun i => line47 (i + 1)

/-- An environment whose file system holds `app.py` with exactly 47 lines. -/
def env47 : Env :=
  { envNone with
    fs := fun p =>
      if p = "app.py".data then Except.ok lines47
      else Except.error "No such file or directory".data }

/-- An environment where the OpenAI library is importable, its credential is
set, and the network call raises a connection error; Anthropic is also fully
configured, to witness that it is nevertheless never consulted. -/
def envOpenAIDown : Env :=
  { openai_available := true, anthropic_available := true,
    openai_api_key := some "sk-test".data,
    anthropic_api_key := some "ak-test".data,
    openai_call := fun _ => Except.error "Connection error".data,
    anthropic_call := fun _ => Except.ok "anthropic says hi".data,
    fs := fun _ => Except.error "No such file or directory".data }

/-- The Scenario C style log used by the window-size counterexample. -/
def c6Log : List Char :=
  "Traceback (most recent call last):\n  File \"app.py\", line 42, in <module>\nNameError: name 'foo' is not defined".data

/-- A log holding an early stack-trace-style location and then two
traceback-style frames; the traceback pattern first matches at index 17. -/
def c10Log : List Char :=
  "at e.js:3:4 then File \"one.py\", line 1\nFile \"two.py\", line 2".data

example : searchPy "File \"a.py\", line 42".data = some ("a.py".data, 42) := by decide
example : searchPy "x File \"a\"b\", line 7 more".data = some ("a\"b".data, 7) := by decide
example : searchJs "at a:b:1:2".data = some ("a:b".data, 1, 2) := by decide
example : searchJs "What at x:1:2".data = some ("at x".data, 1, 2) := by decide
example : searchPy "File \"a.py\", line 0042 tail".data = some ("a.py".data, 42) := by decide
example :
    searchPy "File \"first.py\", line 1\nFile \"second.py\", line 2".data
      = some ("first.py".data, 1) := by decide
example :
    (parse_error_log "at e.js:3:4 then File \"p.py\", line 9".data).file_path
      = some "p.py".data := by decide
example : searchPy "File \"x\", line ".data = none := by decide
example : searchJs "at foo.js:10:5".data = some ("foo.js".data, 10, 5) := by decide

/-- On non-blank input, one run of `main` completes with exit status 0 and the
result record assembled from the pipeline stages. -/
theorem main_run (env : Env) (input : List Char) (h : isBlank input = false) :
    main env input = .completed
      { success := true,
        error_info := parse_error_log input,
        code_context := mainCodeContext env (parse_error_log input),
        ai_suggestions := mainAISuggestions env input
          (mainCodeContext env (parse_error_log input)),
        fallback_suggestions := generate_fallback_suggestions (parse_error_log input),
        ai_provider := mainAIProvider env } 0 := by
  simp [main, h]

/-- The error type computed by `parse_error_log` is the `if`/`elif` substring
chain, whatever the location patterns do. -/
theorem parse_error_type (log : List Char) :
    (parse_error_log log).error_type =
      (if containsSub log "SyntaxError".data then "SyntaxError".data
       else if containsSub log "TypeError".data then "TypeError".data
       else if containsSub log "ImportError".data
               || containsSub log "ModuleNotFoundError".data then "ImportError".data
       else if containsSub log "NameError".data then "NameError".data
       else if containsSub log "AttributeError".data then "AttributeError".data
       else "Unknown".data) := by
  unfold parse_error_log
  rcases hp : searchPy log with _ | ⟨p, n⟩
  · rcases hj : searchJs log with _ | ⟨q, m, c⟩ <;> simp
  · simp

/-- When the traceback pattern matches, its groups supply the location. -/
theorem parse_fields_py (log p : List Char) (n : Nat)
    (hp : searchPy log = some (p, n)) :
    (parse_error_log log).file_path = some p
    ∧ (parse_error_log log).line_number = some n := by
  unfold parse_error_log
  rw [hp]
  exact ⟨rfl, rfl⟩

/-- When only the stack-trace pattern matches, its first two groups supply
the location. -/
theorem parse_fields_js (log p : List Char) (n c : Nat)
    (hp : searchPy log = none) (hj : searchJs log = some (p, n, c)) :
    (parse_error_log log).file_path = some p
    ∧ (parse_error_log log).line_number = some n := by
  unfold parse_error_log
  rw [hp, hj]
  exact ⟨rfl, rfl⟩

/-- When neither pattern matches, both location fields stay `None`. -/
theorem parse_fields_none (log : List Char)
    (hp : searchPy log = none) (hj : searchJs log = none) :
    (parse_error_log log).file_path = none
    ∧ (parse_error_log log).line_number = none := by
  unfold parse_error_log
  rw [hp, hj]
  exact ⟨rfl, rfl⟩

/-- Every row of the fallback table, the default row included, is a
three-element (hence nonempty) list. -/
theorem fallbackTable_ne_nil (t : List Char) : fallbackTable t ≠ [] := by
  unfold fallbackTable
  split_ifs <;> simp

/-- `searchPy` returns the match at the leftmost matching start position. -/
theorem searchPy_leftmost (log : List Char) :
    ∀ (i : Nat) (r : List Char × Nat),
      pyAt (List.drop i log) = some r →
      (∀ j, j < i → pyAt (List.drop j log) = none) →
      searchPy log = some r := by
  induction log with
  | nil =>
    intro i r h _
    rw [List.drop_nil] at h
    rw [show pyAt [] = none by decide] at h
    exact absurd h (by simp)
  | cons c rest ih =>
    intro i r h hmin
    cases i with
    | zero =>
      rw [List.drop_zero] at h
      simp [searchPy, h]
    | succ i' =>
      have h0 : pyAt (c :: rest) = none := by
        have := hmin 0 (Nat.succ_pos _)
        rwa [List.drop_zero] at this
      have hrest : pyAt (List.drop i' rest) = some r := by
        rwa [List.drop_succ_cons] at h
      have hminr : ∀ j, j < i' → pyAt (List.drop j rest) = none := by
        intro j hj
        have := hmin (j + 1) (Nat.succ_lt_succ hj)
        rwa [List.drop_succ_cons] at this
      rw [searchPy, h0]
      exact ih i' r hrest hminr

/-- C1: an empty or whitespace-only input makes `main` short-circuit before
any parsing, emit the document with `success = false` and error
`No error log provided`, and exit with status 1; every other input completes
(the embedding of the analysis is a total function, so nothing raises) with a
well-formed result whose `success` field is `true` and exit status 0. -/
theorem c1_short_circuit_and_total_success (env : Env) (input : List Char) :
    (isBlank input = true →
      main env input = .failed false "No error log provided".data 1)
    ∧ (isBlank input = false →
      ∃ r : AnalysisResult, main env input = .completed r 0 ∧ r.success = true) := by
  constructor
  · intro h
    simp [main, h]
  · intro h
    exact ⟨_, main_run env input h, rfl⟩

/-- Witness for C1 at the empty input and at a concrete error log. -/
theorem c1_short_circuit_and_total_success_w :
    main envNone [] = .failed false "No error log provided".data 1
    ∧ ∃ r : AnalysisResult,
        main envNone "TypeError: boom".data = .completed r 0 ∧ r.success = true :=
  ⟨(c1_short_circuit_and_total_success envNone []).1 (by decide),
   (c1_short_circuit_and_total_success envNone "TypeError: boom".data).2 (by decide)⟩

/-- C3: the error type is chosen by scanning for the known substrings in the
fixed priority order SyntaxError, TypeError, ImportError/ModuleNotFoundError
(normalized to ImportError), NameError, AttributeError; the first match wins
and `Unknown` results when none match; in particular any log containing
`SyntaxError` gets that type regardless of other content. -/
theorem c3_error_type_priority (log : List Char) :
    (containsSub log "SyntaxError".data = true →
      (parse_error_log log).error_type = "SyntaxError".data)
    ∧ (containsSub log "SyntaxError".data = false →
       containsSub log "TypeError".data = true →
      (parse_error_log log).error_type = "TypeError".data)
    ∧ (containsSub log "SyntaxError".data = false →
       containsSub log "TypeError".data = false →
       (containsSub log "ImportError".data = true
        ∨ containsSub log "ModuleNotFoundError".data = true) →
      (parse_error_log log).error_type = "ImportError".data)
    ∧ (containsSub log "SyntaxError".data = false →
       containsSub log "TypeError".data = false →
       containsSub log "ImportError".data = false →
       containsSub log "ModuleNotFoundError".data = false →
       containsSub log "NameError".data = true →
      (parse_error_log log).error_type = "NameError".data)
    ∧ (containsSub log "SyntaxError".data = false →
       containsSub log "TypeError".data = false →
       containsSub log "ImportError".data = false →
       containsSub log "ModuleNotFoundError".data = false →
       containsSub log "NameError".data = false →
       containsSub log "AttributeError".data = true →
      (parse_error_log log).error_type = "AttributeError".data)
    ∧ (containsSub log "SyntaxError".data = false →
       containsSub log "TypeError".data = false →
       containsSub log "ImportError".data = false →
       containsSub log "ModuleNotFoundError".data = false →
       containsSub log "NameError".data = false →
       containsSub log "AttributeError".data = false →
      (parse_error_log log).error_type = "Unknown".data) := by
  have ht := parse_error_type log
  refine ⟨fun h1 => ?_, fun h1 h2 => ?_, fun h1 h2 h3 => ?_,
          fun h1 h2 h3 h4 h5 => ?_, fun h1 h2 h3 h4 h5 h6 => ?_,
          fun h1 h2 h3 h4 h5 h6 => ?_⟩ <;> rw [ht]
  · simp [h1]
  · simp [h1, h2]
  · rcases h3 with h3 | h3 <;> simp [h1, h2, h3]
  · simp [h1, h2, h3, h4, h5]
  · simp [h1, h2, h3, h4, h5, h6]
  · simp [h1, h2, h3, h4, h5, h6]

/-- Witness for C3: a log holding both `SyntaxError` and `TypeError` is
typed `SyntaxError`, and one holding none of the keywords is `Unknown`. -/
theorem c3_error_type_priority_w :
    (parse_error_log "TypeError after SyntaxError".data).error_type
      = "SyntaxError".data
    ∧ (parse_error_log "segmentation fault".data).error_type = "Unknown".data :=
  ⟨(c3_error_type_priority "TypeError after SyntaxError".data).1 (by decide),
   (c3_error_type_priority "segmentation fault".data).2.2.2.2.2
     (by decide) (by decide) (by decide) (by decide) (by decide) (by decide)⟩

/-- C4: the traceback pattern is tried first and the stack-trace pattern
second, the first successful match supplying both location fields; when
neither matches both fields are absent, hence in every parse result the line
number is present exactly when the file path is, and in that absent case
`main` attempts no code-context extraction. -/
theorem c4_location_pairing (log : List Char) :
    ((parse_error_log log).line_number.isSome
      = (parse_error_log log).file_path.isSome)
    ∧ (∀ p n, searchPy log = some (p, n) →
        (parse_error_log log).file_path = some p
        ∧ (parse_error_log log).line_number = some n)
    ∧ (∀ p n c, searchPy log = none → searchJs log = some (p, n, c) →
        (parse_error_log log).file_path = some p
        ∧ (parse_error_log log).line_number = some n)
    ∧ (searchPy log = none → searchJs log = none →
        (parse_error_log log).file_path = none
        ∧ (parse_error_log log).line_number = none
        ∧ ∀ env : Env, mainCodeContext env (parse_error_log log) = none) := by
  refine ⟨?_, fun p n hp => parse_fields_py log p n hp,
          fun p n c hp hj => parse_fields_js log p n c hp hj,
          fun hp hj => ?_⟩
  · rcases hp : searchPy log with _ | ⟨p, n⟩
    · rcases hj : searchJs log with _ | ⟨q, mc⟩
      · obtain ⟨h1, h2⟩ := parse_fields_none log hp hj
        rw [h1, h2]; rfl
      · obtain ⟨h1, h2⟩ := parse_fields_js log q mc.1 mc.2 hp (by rw [hj])
        rw [h1, h2]; rfl
    · obtain ⟨h1, h2⟩ := parse_fields_py log p n hp
      rw [h1, h2]; rfl
  · obtain ⟨h1, h2⟩ := parse_fields_none log hp hj
    refine ⟨h1, h2, fun env => ?_⟩
    simp [mainCodeContext, h1, h2]

/-- Witness for C4 at a log matching neither location pattern. -/
theorem c4_location_pairing_w :
    (parse_error_log "TypeError: boom".data).file_path = none
    ∧ (parse_error_log "TypeError: boom".data).line_number = none :=
  ⟨((c4_location_pairing "TypeError: boom".data).2.2.2 (by decide) (by decide)).1,
   ((c4_location_pairing "TypeError: boom".data).2.2.2 (by decide) (by decide)).2.1⟩

/-- C10: when the traceback pattern occurs several times, the match at the
leftmost (first, outermost-frame) position wins, and whenever the traceback
pattern matches anywhere the stack-trace pattern is ignored: the parse
fields come from the traceback match alone. -/
theorem c10_traceback_first_occurrence (log : List Char) :
    (∀ i r, pyAt (List.drop i log) = some r →
        (∀ j, j < i → pyAt (List.drop j log) = none) →
        searchPy log = some r)
    ∧ (∀ p n, searchPy log = some (p, n) →
        (parse_error_log log).file_path = some p
        ∧ (parse_error_log log).line_number = some n) :=
  ⟨searchPy_leftmost log, fun p n hp => parse_fields_py log p n hp⟩

/-- Witness for C10: a log with an earlier stack-trace location and two
traceback frames parses to the first frame's path. -/
theorem c10_traceback_first_occurrence_w :
    searchPy c10Log = some ("one.py".data, 1)
    ∧ (parse_error_log c10Log).file_path = some "one.py".data :=
  ⟨(c10_traceback_first_occurrence c10Log).1 17 ("one.py".data, 1)
     (by decide) (by decide),
   ((c10_traceback_first_occurrence c10Log).2 "one.py".data 1 (by decide)).1⟩

/-- C2: the provider chain invokes exactly the first provider in priority
order (OpenAI before Anthropic) that is available and configured; once
selected, the result is independent of everything about the other provider
(it is never tried), even when the selected call raises; a raising call
yields an error-description string as `ai_suggestions` with `ai_provider`
that provider's id and fallback suggestions still populated. -/
theorem c2_first_configured_provider_wins (env : Env) (input e : List Char)
    (hblank : isBlank input = false) :
    (env.openai_available = true → truthyOpt env.openai_api_key = true →
      (∀ (b : Bool) (k : Option (List Char))
          (f : List Char → Except (List Char) (List Char)),
        main { env with anthropic_available := b, anthropic_api_key := k,
                        anthropic_call := f } input = main env input)
      ∧ ∃ r : AnalysisResult, main env input = .completed r 0
          ∧ r.ai_provider = "openai".data
          ∧ r.fallback_suggestions
              = generate_fallback_suggestions (parse_error_log input)
          ∧ r.fallback_suggestions ≠ []
          ∧ (env.openai_call
                (buildPrompt input
                  (mainSnippet (mainCodeContext env (parse_error_log input))))
              = Except.error e →
             r.ai_suggestions = some ("Error calling OpenAI API: ".data ++ e)))
    ∧ ((env.openai_available && truthyOpt env.openai_api_key) = false →
        env.anthropic_available = true → truthyOpt env.anthropic_api_key = true →
        ∃ r : AnalysisResult, main env input = .completed r 0
          ∧ r.ai_provider = "anthropic".data
          ∧ r.ai_suggestions = some (analyze_with_anthropic env input
              (mainSnippet (mainCodeContext env (parse_error_log input)))))
    ∧ ((env.openai_available && truthyOpt env.openai_api_key) = false →
        (env.anthropic_available && truthyOpt env.anthropic_api_key) = false →
        ∃ r : AnalysisResult, main env input = .completed r 0
          ∧ r.ai_provider = "none".data
          ∧ r.ai_suggestions = none) := by
  refine ⟨fun hav hkey => ⟨fun b k f => ?_, ?_⟩,
          fun ho hav hkey => ?_, fun ho ha => ?_⟩
  · rw [main_run env input hblank, main_run _ input hblank]
    simp [mainAISuggestions, mainAIProvider, analyze_with_openai, hav, hkey]
    exact ⟨rfl, rfl⟩
  · refine ⟨_, main_run env input hblank, ?_, rfl, fallbackTable_ne_nil _, ?_⟩
    · simp [mainAIProvider, hav, hkey]
    · intro hraise
      simp [mainAISuggestions, analyze_with_openai, hav, hkey, hraise]
  · refine ⟨_, main_run env input hblank, ?_, ?_⟩
    · simp [mainAIProvider, ho, hav, hkey]
    · simp [mainAISuggestions, ho, hav, hkey]
  · refine ⟨_, main_run env input hblank, ?_, ?_⟩
    · simp [mainAIProvider, ho, ha]
    · simp [mainAISuggestions, ho, ha]

/-- Witness for C2: with OpenAI configured and raising a connection error,
the run is unchanged by replacing every Anthropic ingredient. -/
theorem c2_first_configured_provider_wins_w :
    main { envOpenAIDown with anthropic_available := true,
                              anthropic_api_key := some "other-key".data,
                              anthropic_call := fun _ => Except.ok "other".data }
        "TypeError: boom".data
      = main envOpenAIDown "TypeError: boom".data :=
  ((c2_first_configured_provider_wins envOpenAIDown "TypeError: boom".data
      "Connection error".data (by decide)).1 (by decide) (by decide)).1
    true (some "other-key".data) (fun _ => Except.ok "other".data)

/-- C5 is refuted: the result dictionary assembled by `main` has no
`fallback_used` entry at all; a concrete full run shows the document that is
actually produced. -/
theorem c5_fallback_used_cex :
    main envNone "TypeError: boom".data = .completed
      { success := true,
        error_info := { error_type := "TypeError".data, file_path := none,
                        line_number := none, message := "TypeError: boom".data },
        code_context := none,
        ai_suggestions := none,
        fallback_suggestions :=
          ["Check if you're passing the correct data types".data,
           "Verify function arguments match expected types".data,
           "Review type conversions (str, int, float, etc.)".data],
        ai_provider := "none".data } 0
    ∧ "fallback_used".data ∉ analysisResultKeys := by
  exact ⟨by decide, by decide⟩

/-- C5 (amended): the result has no `fallback_used` field; instead
`ai_provider = "none"` exactly when no provider is available and configured,
and in that case `ai_suggestions` is the absent marker `None`. -/
theorem c5_provider_none_absent_marker (env : Env) (input : List Char)
    (hblank : isBlank input = false) :
    "fallback_used".data ∉ analysisResultKeys
    ∧ ∃ r : AnalysisResult, main env input = .completed r 0
        ∧ (r.ai_provider = "none".data ↔
            ((env.openai_available && truthyOpt env.openai_api_key) = false
             ∧ (env.anthropic_available && truthyOpt env.anthropic_api_key) = false))
        ∧ ((env.openai_available && truthyOpt env.openai_api_key) = false →
           (env.anthropic_available && truthyOpt env.anthropic_api_key) = false →
           r.ai_suggestions = none) := by
  refine ⟨by decide, _, main_run env input hblank, ?_, ?_⟩
  · cases ho : env.openai_available && truthyOpt env.openai_api_key <;>
      cases ha : env.anthropic_available && truthyOpt env.anthropic_api_key <;>
      simp [mainAIProvider, ho, ha]
  · intro ho ha
    simp [mainAISuggestions, ho, ha]

/-- Witness for C5 (amended) at a concrete unconfigured run. -/
theorem c5_provider_none_absent_marker_w :
    "fallback_used".data ∉ analysisResultKeys :=
  (c5_provider_none_absent_marker envNone "TypeError: boom".data (by decide)).1

/-- C6 is refuted at a ten-line `app.py`: the log does contain
`File "app.py", line 42`, the file exists with at least 10 lines, and
`start_line = 37`, but `end_line = min(total_lines, 47) = 10`, not 47. -/
theorem c6_window_cex :
    parse_error_log c6Log =
      { error_type := "NameError".data, file_path := some "app.py".data,
        line_number := some 42, message := c6Log }
    ∧ env10.fs "app.py".data = Except.ok tenLines
    ∧ tenLines.length = 10
    ∧ extract_code_context env10 "app.py".data 42 = .ok [] 37 10 42
    ∧ (10 : Nat) ≠ 47 := by
  exact ⟨by decide, rfl, by decide, by decide, by decide⟩

/-- C6 (amended): extraction computes `start = max(0, line_number - 6)`
(Nat subtraction), `end = min(total_lines, line_number + 5)`, reports
`start_line = start + 1`, `end_line = end`, `error_line = line_number` and
the joined slice as snippet; the Scenario C values `start_line = 37`,
`end_line = 47` for line 42 need at least 47 lines, not 10. -/
theorem c6_window_formula (env : Env) (p : List Char) (n : Nat)
    (lines : List (List Char)) (h : env.fs p = Except.ok lines) :
    extract_code_context env p n
      = .ok (((lines.drop (n - 5 - 1)).take
                (min lines.length (n + 5) - (n - 5 - 1))).flatten)
          (n - 5 - 1 + 1) (min lines.length (n + 5)) n
    ∧ (47 ≤ lines.length →
        extract_code_context env p 42
          = .ok ((lines.drop 36).take 11).flatten 37 47 42) := by
  constructor
  · unfold extract_code_context
    rw [h]
  · intro h47
    have hm : min lines.length (42 + 5) = 47 := by omega
    unfold extract_code_context
    rw [h]
    simp only [hm]

/-- Witness for C6 (amended) at the 47-line `app.py`. -/
theorem c6_window_formula_w :
    extract_code_context env47 "app.py".data 42
      = .ok ((lines47.drop 36).take 11).flatten 37 47 42 :=
  (c6_window_formula env47 "app.py".data 42 lines47 rfl).2 (by decide)

/-- C7 is refuted: for a line number beyond the end of the file the success
branch reports `end_line < start_line` (a 3-line file at line 100 gives
`start_line = 95`, `end_line = 3`). -/
theorem c7_start_le_end_cex :
    extract_code_context env3 "f.py".data 100 = .ok [] 95 3 100
    ∧ ¬(95 ≤ 3) := by
  exact ⟨by decide, by decide⟩

/-- C7 (amended): every successful extraction has `start_line ≥ 1`, and
`end_line ≥ start_line` holds whenever the (positive) line number does not
lie beyond the last line of the file. -/
theorem c7_window_bounds (env : Env) (p : List Char) (n : Nat)
    (lines : List (List Char)) (h : env.fs p = Except.ok lines) :
    ∀ code s t m, extract_code_context env p n = .ok code s t m →
      1 ≤ s ∧ (1 ≤ n → n ≤ lines.length → s ≤ t) := by
  intro code s t m hx
  unfold extract_code_context at hx
  rw [h] at hx
  simp only [CodeContext.ok.injEq] at hx
  obtain ⟨-, hs, ht, -⟩ := hx
  omega

/-- Witness for C7 (amended) at the 3-line file and line 2. -/
theorem c7_window_bounds_w :
    1 ≤ 1
    ∧ (1 ≤ 2 →
        2 ≤ (["a\n".data, "b\n".data, "c\n".data] : List (List Char)).length →
        (1 : Nat) ≤ 3) :=
  c7_window_bounds env3 "f.py".data 2 ["a\n".data, "b\n".data, "c\n".data] rfl
    "a\nb\nc\n".data 1 3 2 (by decide)

/-- C8: any I/O failure during extraction is returned as data — an empty
snippet plus `extraction_error` text — and the orchestrator carries on to a
successful result that uses the empty snippet instead of failing hard. -/
theorem c8_extraction_error_recovered (env : Env) (p : List Char) (n : Nat)
    (e : List Char) (hfs : env.fs p = Except.error e) :
    extract_code_context env p n
      = .err [] ("Could not extract code: ".data ++ e)
    ∧ ∀ input, isBlank input = false →
        (parse_error_log input).file_path = some p →
        (parse_error_log input).line_number = some n →
        p.isEmpty = false → n ≠ 0 →
        ∃ r : AnalysisResult, main env input = .completed r 0
          ∧ r.success = true
          ∧ r.code_context
              = some (.err [] ("Could not extract code: ".data ++ e))
          ∧ mainSnippet r.code_context = [] := by
  have hext : extract_code_context env p n
      = .err [] ("Could not extract code: ".data ++ e) := by
    unfold extract_code_context
    rw [hfs]
  refine ⟨hext, fun input hb hfp hln hpe hn0 => ?_⟩
  have hctx : mainCodeContext env (parse_error_log input)
      = some (CodeContext.err [] ("Could not extract code: ".data ++ e)) := by
    simp [mainCodeContext, hfp, hln, hpe, hn0, hext]
  refine ⟨_, main_run env input hb, rfl, ?_, ?_⟩
  · exact hctx
  · rw [hctx]
    rfl

/-- Witness for C8 at a missing file. -/
theorem c8_extraction_error_recovered_w :
    extract_code_context envNone "missing.py".data 3
      = CodeContext.err []
          ("Could not extract code: ".data ++ "No such file or directory".data) :=
  (c8_extraction_error_recovered envNone "missing.py".data 3
     "No such file or directory".data rfl).1

/-- C9: the fallback lookup is a total pure function with a fixed nonempty
list for each known error type, a generic default for every other string,
and it is computed on every analysis regardless of the AI provider path. -/
theorem c9_fallback_total_and_always_computed (t : List Char) (env : Env)
    (input : List Char) (hblank : isBlank input = false) :
    fallbackTable t ≠ []
    ∧ (t ≠ "SyntaxError".data → t ≠ "ImportError".data → t ≠ "TypeError".data →
       t ≠ "NameError".data → t ≠ "AttributeError".data →
       fallbackTable t =
         ["Review the error message carefully".data,
          "Check the documentation for the failing component".data,
          "Try searching for similar errors online".data])
    ∧ fallbackTable "Unknown".data =
        ["Review the error message carefully".data,
         "Check the documentation for the failing component".data,
         "Try searching for similar errors online".data]
    ∧ ∃ r : AnalysisResult, main env input = .completed r 0
        ∧ r.fallback_suggestions
            = fallbackTable (parse_error_log input).error_type := by
  refine ⟨fallbackTable_ne_nil t, fun h1 h2 h3 h4 h5 => ?_, by decide,
          _, main_run env input hblank, rfl⟩
  simp [fallbackTable, h1, h2, h3, h4, h5]

/-- Witness for C9 at an unknown error type and a concrete run. -/
theorem c9_fallback_total_and_always_computed_w :
    fallbackTable "CustomError".data ≠ []
    ∧ fallbackTable "CustomError".data =
        ["Review the error message carefully".data,
         "Check the documentation for the failing component".data,
         "Try searching for similar errors online".data] :=
  ⟨(c9_fallback_total_and_always_computed "CustomError".data envNone
      "x".data (by decide)).1,
   (c9_fallback_total_and_always_computed "CustomError".data envNone
      "x".data (by decide)).2.1
     (by decide) (by decide) (by decide) (by decide) (by decide)⟩

end ErrorAnalyzer
